import Mathlib

/-!
Shallow embedding of the connection core of MySQL Connector/Python
(`mysql/connector/connection.py`, class `MySQLConnection`).

The embedding models a connection as a record `Conn` holding the session
state of the Python object together with an explicit environment:

* `socket`    — whether `self._socket` is set (the framer is present);
* `handshake` — whether `self._handshake` is set;
* `incoming`  — the script of packets the framer will deliver, in order
                (each `recv()` pops the head);
* `sent`      — the log of everything handed to `self._socket.send`, in order;
* `fs`        — the readable files visible to `open(filename)`, as an
                association list from file name to file contents.

Python methods become functions `Conn → args → Res α`, where `Res α` is
either a returned value together with the post state, or a raised exception
together with the state as mutated up to the raise.

The wire codec (`mysql/connector/protocol.py`) and the constants module are
collaborators of the connection core and are not part of the translated
source file; packets are therefore modelled as already-decoded tagged values
(the constructor of `Packet` plays the role of the type tag at `packet[4]`),
and the few codec functions the core calls are modelled from the spec, as
marked in their doc comments.
-/

namespace MySQL

/-- Error taxonomy of `mysql.connector.errors`, plus the Python built-in
exceptions that the source can let escape (`AttributeError` from calling a
method on `self._socket = None`, `TypeError` from subscripting
`self._handshake = None`, `IndexError` from `data[param_id]`).
`MySQLError` stands for `errors.get_exception(packet)` applied to an ERR
packet. -/
inductive PyErr where
  | InternalError (msg : String)
  | OperationalError (msg : String)
  | InterfaceError (msg : String)
  | ProgrammingError (msg : String)
  | NotSupportedError (msg : String)
  | ValueError (msg : String)
  | MySQLError (errno : Nat) (msg : String)
  | AttributeError
  | TypeError
  | IndexError
deriving DecidableEq

/-- Packets as delivered by the framer, already decoded.  The constructor
determines the type tag at `packet[4]`: `ok` and `prepareOk` carry tag 0,
`err` tag 255, `eof` tag 254, `localInfile` tag 251, `columnCount n` the
length-encoded column count `n`, and `column`/`row` are the column-definition
and row packets consumed inside result sets. -/
inductive Packet where
  | ok (affected_rows insert_id server_status warning_count : Nat)
  | eof (status_flag warning_count : Nat)
  | err (errno : Nat) (msg : String)
  | localInfile (filename : String)
  | columnCount (n : Nat)
  | column (info : Nat)
  | row (data : List Nat)
  | prepareOk (statement_id num_columns num_params warning_count : Nat)
deriving DecidableEq

/-- Result of `parse_ok`: the OK-packet record. -/
structure OkFields where
  affected_rows : Nat
  insert_id : Nat
  server_status : Nat
  warning_count : Nat
deriving DecidableEq

/-- Result of `parse_eof`: the EOF-packet record. -/
structure EofFields where
  status_flag : Nat
  warning_count : Nat
deriving DecidableEq

/-- Result of `parse_binary_prepare_ok`: the prepare-OK record.  Note that
the prepare-OK payload carries no server-status field. -/
structure PrepareOkFields where
  statement_id : Nat
  num_columns : Nat
  num_params : Nat
  warning_count : Nat
deriving DecidableEq

/-- Argument part of a command packet built by `make_command` (or one of the
specialised packet builders routed through `_send_cmd`).  `str` stands for a
UTF-8 encoded string argument, `int4` for `int4store(n)`, `longData` for the
payload built by `_prepare_stmt_send_long_data`, and `stmtExec` for the
execute packet built by `make_stmt_execute` (whose parameter encoding is
abstracted away, since no claim inspects it). -/
inductive Arg where
  | none
  | str (s : String)
  | bytes (b : List Nat)
  | int4 (n : Nat)
  | longData (statement_id param_id : Nat) (chunk : List Nat)
  | stmtExec (statement_id flags : Nat)
deriving DecidableEq

/-- One unit handed to `self._socket.send`: either a framed command packet
(`make_command` output, or the change-user packet), or raw bytes as sent by
`_send_data` (a file chunk or the empty terminator packet). -/
inductive Sent where
  | cmd (command : Nat) (a : Arg)
  | changeUserPkt (username password database : String) (charset : Nat)
  | raw (b : List Nat)
deriving DecidableEq

/-- The connection object: the session state of `MySQLConnection` together
with its environment (framer presence and script, send log, filesystem). -/
structure Conn where
  socket : Bool
  handshake : Bool
  incoming : List Packet
  sent : List Sent
  fs : List (String × List Nat)
  unread_result : Bool
  have_next_result : Bool
  in_transaction : Bool
  client_flags : Nat
  get_warnings : Bool
  raise_on_warnings : Bool
  user : String
  password : String
deriving DecidableEq

/-- Outcome of running one Python method: a returned value or a raised
exception, in both cases together with the connection state as mutated up to
that point. -/
inductive Res (α : Type) where
  | ok (v : α) (s : Conn)
  | exn (e : PyErr) (s : Conn)
deriving DecidableEq

/-- State component of an outcome. -/
def Res.state {α : Type} : Res α → Conn
  | .ok _ s => s
  | .exn _ s => s

/-- Exception component of an outcome, if any. -/
def Res.errOf {α : Type} : Res α → Option PyErr
  | .ok _ _ => Option.none
  | .exn e _ => some e

/-- Whether the outcome is a normal return. -/
def Res.isOk {α : Type} : Res α → Bool
  | .ok _ _ => true
  | .exn _ _ => false

/-- Modelled from the spec: `ServerCmd.QUERY`. -/
def ServerCmd.QUERY : Nat := 3

/-- Modelled from the spec: `ServerCmd.CHANGE_USER`. -/
def ServerCmd.CHANGE_USER : Nat := 17

/-- Modelled from the spec: `ServerCmd.STMT_CLOSE`. -/
def ServerCmd.STMT_CLOSE : Nat := 25

/-- Modelled from the spec: the in-transaction bit of the server status
flags carried by OK/EOF packets (`ServerFlag.STATUS_IN_TRANS`). -/
def ServerFlag.STATUS_IN_TRANS : Nat := 1

/-- Modelled from the spec: the more-results-exist bit of the server status
flags (`ServerFlag.MORE_RESULTS_EXISTS`). -/
def ServerFlag.MORE_RESULTS_EXISTS : Nat := 8

/-- Modelled from the spec: `constants.flag_is_set(flag, flags)`, the bit
test `(flags & flag) > 0`. -/
def flag_is_set (flag flags : Nat) : Bool := 0 < (flags &&& flag)

/-- Modelled from the spec: `constants.NET_BUFFER_LENGTH`. -/
def NET_BUFFER_LENGTH : Nat := 8192

/-- `MySQLConnection._send_cmd(command, argument)`: refuse when an unread
result is outstanding, convert a missing framer into an operational error
(the `except AttributeError` around `self._socket.send`), otherwise send the
framed command packet and, when a response is expected, return the next
packet from the framer. -/
def send_cmd (s : Conn) (command : Nat) (argument : Arg) (expect_response : Bool) :
    Res (Option Packet) :=
  if s.unread_result then .exn (.InternalError "Unread result found.") s
  else if s.socket = false then .exn (.OperationalError "MySQL Connection not available.") s
  else
    let s1 : Conn := { s with sent := s.sent ++ [Sent.cmd command argument] }
    if expect_response = false then .ok Option.none s1
    else
      match s1.incoming with
      | [] => .exn (.InterfaceError "socket recv failed") s1
      | p :: rest => .ok (some p) { s1 with incoming := rest }

/-- `MySQLConnection._handle_server_status(flags)`: mirror the
more-results-exist and in-transaction bits of `flags` into the session
state. -/
def handle_server_status (s : Conn) (flags : Nat) : Conn :=
  { s with
    have_next_result := flag_is_set ServerFlag.MORE_RESULTS_EXISTS flags,
    in_transaction := flag_is_set ServerFlag.STATUS_IN_TRANS flags }

/-- `MySQLConnection._handle_ok(packet)`: parse an OK packet and update the
session status flags from it; re-raise an ERR packet; otherwise an
interface error.  (A prepare-OK also carries first payload byte 0, but no
dispatch in the source routes one here; its byte-level `parse_ok` is not
modelled.) -/
def handle_ok (s : Conn) (p : Packet) : Res OkFields :=
  match p with
  | .ok a i st w => .ok ⟨a, i, st, w⟩ (handle_server_status s st)
  | .err errno msg => .exn (.MySQLError errno msg) s
  | _ => .exn (.InterfaceError "Expected OK packet") s

/-- `MySQLConnection._handle_eof(packet)`: parse an EOF packet and update
the session status flags from it; re-raise an ERR packet; otherwise an
interface error. -/
def handle_eof (s : Conn) (p : Packet) : Res EofFields :=
  match p with
  | .eof st w => .ok ⟨st, w⟩ (handle_server_status s st)
  | .err errno msg => .exn (.MySQLError errno msg) s
  | _ => .exn (.InterfaceError "Expected EOF packet") s

/-- `MySQLConnection._handle_binary_ok(packet)`: parse a prepare-OK packet.
Unlike `_handle_ok` and `_handle_eof`, this handler does not touch
`self._have_next_result` / `self._in_transaction` (the prepare-OK payload
carries no server-status field). -/
def handle_binary_ok (s : Conn) (p : Packet) : Res PrepareOkFields :=
  match p with
  | .prepareOk sid nc np w => .ok ⟨sid, nc, np, w⟩ s
  | .err errno msg => .exn (.MySQLError errno msg) s
  | _ => .exn (.InterfaceError "Expected Binary OK packet") s

/-- Splitting a byte sequence into successive chunks of at most `size`
bytes, as produced by the loop `buf = f.read(size); while buf: ...;
buf = f.read(size)`. -/
def chunk_bytes (size : Nat) (l : List Nat) : List (List Nat) :=
  if size = 0 then []
  else if h : l = [] then []
  else l.take size :: chunk_bytes size (l.drop size)
termination_by l.length
decreasing_by
  simp only [List.length_drop]
  cases l with
  | nil => exact absurd rfl h
  | cons a t => simp; omega

/-- `MySQLConnection._send_data(data_file, send_empty_packet)`: refuse on an
unread result, stream the file in chunks of `NET_BUFFER_LENGTH - 16` bytes
(each chunk one `send`), optionally send the empty packet, and return the
next packet from the framer.  A missing framer surfaces as an operational
error (the `except AttributeError` blocks around the sends). -/
def send_data (s : Conn) (content : List Nat) (send_empty_packet : Bool) : Res Packet :=
  if s.unread_result then .exn (.InternalError "Unread result found.") s
  else if s.socket = false then .exn (.OperationalError "MySQL Connection not available.") s
  else
    let s1 : Conn :=
      { s with sent := s.sent ++ (chunk_bytes (NET_BUFFER_LENGTH - 16) content).map Sent.raw }
    let s2 : Conn :=
      if send_empty_packet then { s1 with sent := s1.sent ++ [Sent.raw []] } else s1
    match s2.incoming with
    | [] => .exn (.InterfaceError "socket recv failed") s2
    | p :: rest => .ok p { s2 with incoming := rest }

/-- Lookup in the modelled filesystem (`open(filename)` succeeds iff
the name is present). -/
def fsRead (fs : List (String × List Nat)) (name : String) : Option (List Nat) :=
  match fs.find? (fun e => e.fst == name) with
  | Option.none => Option.none
  | some e => some e.snd

/-- `MySQLConnection._handle_load_data_infile(filename)`: if the file cannot
be opened, send one empty packet to cancel the operation and raise an
interface error (the source message quotes the file name); otherwise stream
the file via `_send_data(..., send_empty_packet=True)` and feed the
response to `_handle_ok`. -/
def handle_load_data_infile (s : Conn) (filename : String) : Res OkFields :=
  match fsRead s.fs filename with
  | Option.none =>
    if s.socket = false then .exn (.OperationalError "MySQL Connection not available.") s
    else
      .exn (.InterfaceError ("File " ++ filename ++ " could not be read"))
        { s with sent := s.sent ++ [Sent.raw []] }
  | some content =>
    match send_data s content true with
    | .exn e s1 => .exn e s1
    | .ok p s1 => handle_ok s1 p

/-- Modelled from the spec: `protocol.parse_column_count(packet)`, the
length-encoded column count at the head of a result-set header packet. -/
def parse_column_count (p : Packet) : Option Nat :=
  match p with
  | .columnCount n => some n
  | _ => Option.none

/-- Modelled from the spec: `protocol.parse_column(packet)`, decoding one
column-definition packet. -/
def parse_column (p : Packet) : Option Nat :=
  match p with
  | .column info => some info
  | _ => Option.none

/-- Receiving and parsing `n` column-definition packets, as the loop
`for i in range(0, column_count): columns[i] = parse_column(recv())`. -/
def recv_columns (s : Conn) (n : Nat) : Res (List Nat) :=
  match n with
  | 0 => .ok [] s
  | m + 1 =>
    if s.socket = false then .exn .AttributeError s
    else
      match s.incoming with
      | [] => .exn (.InterfaceError "socket recv failed") s
      | p :: rest =>
        match parse_column p with
        | Option.none => .exn (.InterfaceError "Failed parsing column") { s with incoming := rest }
        | some c =>
          match recv_columns { s with incoming := rest } m with
          | .ok cs s2 => .ok (c :: cs) s2
          | .exn e s2 => .exn e s2

/-- Value returned by `_handle_result` / `_handle_binary_result`: the OK or
EOF record of a result-less command, the text result-set header
`{columns, eof}`, or the binary result-set header triple. -/
inductive CmdResult where
  | okRes (f : OkFields)
  | eofRes (f : EofFields)
  | resultSet (columns : List Nat) (eof : EofFields)
  | binResultSet (count : Nat) (columns : List Nat) (eof : EofFields)
deriving DecidableEq

/-- `MySQLConnection._handle_result(packet)`: dispatch on the packet tag —
OK, LOCAL INFILE request, EOF, ERR — and otherwise read a text result-set
header: the column count, that many column-definition packets, then one EOF
(updating the session status), finally setting `unread_result`.  (The
`prepareOk` arm is the tag-0 case never reached through this dispatcher;
see `handle_ok`.) -/
def handle_result (s : Conn) (p : Packet) : Res CmdResult :=
  match p with
  | .ok .. =>
    match handle_ok s p with
    | .ok f s1 => .ok (.okRes f) s1
    | .exn e s1 => .exn e s1
  | .prepareOk .. =>
    match handle_ok s p with
    | .ok f s1 => .ok (.okRes f) s1
    | .exn e s1 => .exn e s1
  | .localInfile fn =>
    match handle_load_data_infile s fn with
    | .ok f s1 => .ok (.okRes f) s1
    | .exn e s1 => .exn e s1
  | .eof .. =>
    match handle_eof s p with
    | .ok f s1 => .ok (.eofRes f) s1
    | .exn e s1 => .exn e s1
  | .err errno msg => .exn (.MySQLError errno msg) s
  | _ =>
    match parse_column_count p with
    | Option.none => .exn (.InterfaceError "Illegal result set.") s
    | some n =>
      if n = 0 then .exn (.InterfaceError "Illegal result set.") s
      else
        match recv_columns s n with
        | .exn e s1 => .exn e s1
        | .ok cols s1 =>
          if s1.socket = false then .exn .AttributeError s1
          else
            match s1.incoming with
            | [] => .exn (.InterfaceError "socket recv failed") s1
            | q :: rest =>
              match handle_eof { s1 with incoming := rest } q with
              | .exn e s2 => .exn e s2
              | .ok eof s2 => .ok (.resultSet cols eof) { s2 with unread_result := true }

/-- Modelled from the spec: `protocol.read_text_result(socket, count)`.
Reads row packets from the stream — up to `count` of them when a count is
given — returning the rows together with the terminating EOF record, or
`none` in place of the EOF when the count was reached first; the second
component is the rest of the stream. -/
def read_text_result (pkts : List Packet) (count : Option Nat) :
    Except PyErr (List (List Nat) × Option EofFields) × List Packet :=
  if count = some 0 then (.ok ([], Option.none), pkts)
  else
    match pkts with
    | [] => (.error (.InterfaceError "socket recv failed"), [])
    | .eof st w :: rest => (.ok ([], some ⟨st, w⟩), rest)
    | .err errno msg :: rest => (.error (.MySQLError errno msg), rest)
    | .row d :: rest =>
      let next : Option Nat :=
        match count with
        | Option.none => Option.none
        | some m => some (m - 1)
      match read_text_result rest next with
      | (.ok (rows, term), rest2) => (.ok (d :: rows, term), rest2)
      | (.error e, rest2) => (.error e, rest2)
    | _ :: rest => (.error (.InterfaceError "unexpected packet in result"), rest)

/-- `MySQLConnection.get_rows(count=None)`: refuse unless a result is
outstanding, read (text) rows through the codec, and when a terminating EOF
was received update the session status from it and clear `unread_result`.
(The `binary=True` branch delegates to the binary row reader with the same
terminator contract and is not needed by any claim.) -/
def get_rows (s : Conn) (count : Option Nat) : Res (List (List Nat) × Option EofFields) :=
  if s.unread_result = false then .exn (.InternalError "No result set available.") s
  else if s.socket = false then .exn .AttributeError s
  else
    match read_text_result s.incoming count with
    | (.error e, rest) => .exn e { s with incoming := rest }
    | (.ok (rows, term), rest) =>
      match term with
      | some eof =>
        .ok (rows, some eof)
          { handle_server_status { s with incoming := rest } eof.status_flag with
            unread_result := false }
      | Option.none => .ok (rows, Option.none) { s with incoming := rest }

/-- The expression `self._handle_result(self._send_cmd(ServerCmd.QUERY, query))`
inside `cmd_query` / `cmd_query_iter`.  (`_send_cmd` with a response
expected never returns `None`; the dead arm mirrors `packet[4]` on `None`
raising a `TypeError`.) -/
def dispatch_query (s : Conn) (query : String) : Res CmdResult :=
  match send_cmd s ServerCmd.QUERY (Arg.str query) true with
  | .exn e s1 => .exn e s1
  | .ok Option.none s1 => .exn .TypeError s1
  | .ok (some p) s1 => handle_result s1 p

/-- `MySQLConnection.cmd_query(query)`: send the QUERY command and dispatch
the response; if the dispatched result leaves `have_next_result` set, raise
an interface error directing the caller to `cmd_query_iter`. -/
def cmd_query (s : Conn) (query : String) : Res CmdResult :=
  match dispatch_query s query with
  | .exn e s1 => .exn e s1
  | .ok r s1 =>
    if s1.have_next_result then
      .exn (.InterfaceError "Use cmd_query_iter for statements with multiple queries.") s1
    else .ok r s1

/-- `MySQLConnection._execute_query(query)`: check for an unread result and
delegate to `cmd_query`. -/
def execute_query (s : Conn) (query : String) : Res CmdResult :=
  if s.unread_result = true then .exn (.InternalError "Unread result found.") s
  else cmd_query s query

/-- Forgetting the value of an outcome (Python methods built on
`_execute_query` return `None`). -/
def unit_res {α : Type} : Res α → Res Unit
  | .ok _ s => .ok () s
  | .exn e s => .exn e s

/-- `MySQLConnection._handle_binary_result(packet)`: like `_handle_result`
but without the LOCAL INFILE arm, returning the binary result-set header
triple and — unlike the text path — not setting `unread_result`. -/
def handle_binary_result (s : Conn) (p : Packet) : Res CmdResult :=
  match p with
  | .ok .. =>
    match handle_ok s p with
    | .ok f s1 => .ok (.okRes f) s1
    | .exn e s1 => .exn e s1
  | .prepareOk .. =>
    match handle_ok s p with
    | .ok f s1 => .ok (.okRes f) s1
    | .exn e s1 => .exn e s1
  | .eof .. =>
    match handle_eof s p with
    | .ok f s1 => .ok (.eofRes f) s1
    | .exn e s1 => .exn e s1
  | .err errno msg => .exn (.MySQLError errno msg) s
  | _ =>
    match parse_column_count p with
    | Option.none => .exn (.InterfaceError "Illegal result set.") s
    | some n =>
      if n = 0 then .exn (.InterfaceError "Illegal result set.") s
      else
        match recv_columns s n with
        | .exn e s1 => .exn e s1
        | .ok cols s1 =>
          if s1.socket = false then .exn .AttributeError s1
          else
            match s1.incoming with
            | [] => .exn (.InterfaceError "socket recv failed") s1
            | q :: rest =>
              match handle_eof { s1 with incoming := rest } q with
              | .exn e s2 => .exn e s2
              | .ok eof s2 => .ok (.binResultSet n cols eof) s2

/-- Whitespace as stripped by Python str.strip() with no argument (ASCII
range; the further Unicode space characters play no role here). -/
def isPySpace (c : Char) : Bool :=
  (c == ' ') || (c == '\t') || (c == '\n') || (c == '\r') || (c == '\x0b') || (c == '\x0c')

/-- Python `s.strip()` on the character list: drop whitespace from both
ends. -/
def strip_chars (l : List Char) : List Char :=
  ((l.dropWhile isPySpace).reverse.dropWhile isPySpace).reverse

/-- Python `s.strip()`. -/
def py_strip (t : String) : String := String.mk (strip_chars t.data)

/-- Python `s.replace('-', ' ')`: the single-character pattern makes this a
character map. -/
def replace_dash (t : String) : String :=
  String.mk (t.data.map (fun c => if c = '-' then ' ' else c))

/-- Python `s.upper()` (ASCII range suffices for the isolation levels). -/
def py_upper (t : String) : String := String.mk (t.data.map Char.toUpper)

/-- The isolation-level whitelist of `start_transaction`. -/
def isolation_levels : List String :=
  ["READ UNCOMMITTED", "READ COMMITTED", "REPEATABLE READ", "SERIALIZABLE"]

/-- The normalisation `isolation_level.strip().replace('-', ' ').upper()`
performed by `start_transaction`. -/
def normalize_isolation (lvl : String) : String := py_upper (replace_dash (py_strip lvl))

/-- `MySQLConnection.start_transaction(consistent_snapshot, isolation_level)`:
refuse when already in a transaction; when a (truthy) isolation level is
given, validate its normalisation against the whitelist — raising
`ValueError` otherwise (the source message quotes the offending level) —
and issue `SET TRANSACTION ISOLATION LEVEL <L>`; finally issue
`START TRANSACTION`, with ` WITH CONSISTENT SNAPSHOT` appended on request. -/
def start_transaction (s : Conn) (consistent_snapshot : Bool)
    (isolation_level : Option String) : Res Unit :=
  if s.in_transaction then .exn (.ProgrammingError "Transaction already in progress") s
  else
    let startq : String :=
      if consistent_snapshot then "START TRANSACTION WITH CONSISTENT SNAPSHOT"
      else "START TRANSACTION"
    match isolation_level with
    | Option.none => unit_res (execute_query s startq)
    | some lvl =>
      if lvl = "" then unit_res (execute_query s startq)
      else
        let level := normalize_isolation lvl
        if isolation_levels.contains level = false then
          .exn (.ValueError "Unknown isolation level") s
        else
          match execute_query s ("SET TRANSACTION ISOLATION LEVEL " ++ level) with
          | .exn e s1 => .exn e s1
          | .ok _ s1 => unit_res (execute_query s1 startq)

/-- `MySQLConnection.commit()`. -/
def commit (s : Conn) : Res Unit := unit_res (execute_query s "COMMIT")

/-- `MySQLConnection.rollback()`: when an unread result is outstanding,
first drain it with `get_rows()`, then issue `ROLLBACK` through
`_execute_query`. -/
def rollback (s : Conn) : Res Unit :=
  if s.unread_result then
    match get_rows s Option.none with
    | .exn e s1 => .exn e s1
    | .ok _ s1 => unit_res (execute_query s1 "ROLLBACK")
  else unit_res (execute_query s "ROLLBACK")

/-- The `flags` argument of `set_client_flags` as a Python value: an `int`,
a `list`/`tuple` of ints, or anything else. -/
inductive FlagsArg where
  | int (n : Int)
  | list (l : List Int)
  | other
deriving DecidableEq

/-- One iteration of the `for flag in flags` loop of `set_client_flags`:
`self._client_flags &= ~abs(flag)` for a negative flag,
`self._client_flags |= flag` otherwise. -/
def apply_flag (cur : Nat) (flag : Int) : Nat :=
  if flag < 0 then Nat.ldiff cur flag.natAbs else cur ||| flag.toNat

/-- `MySQLConnection.set_client_flags(flags)`: an int greater than 0
replaces the client flags; a list folds `apply_flag` over its elements;
anything else (including ints not greater than 0) raises a programming
error.  Returns the resulting flags. -/
def set_client_flags (s : Conn) (flags : FlagsArg) : Res Nat :=
  match flags with
  | .int n =>
    if 0 < n then .ok n.toNat { s with client_flags := n.toNat }
    else .exn (.ProgrammingError "set_client_flags expect integer (>0) or set") s
  | .list l =>
    let nf := l.foldl apply_flag s.client_flags
    .ok nf { s with client_flags := nf }
  | .other => .exn (.ProgrammingError "set_client_flags expect integer (>0) or set") s

/-- A Python value checked with `isinstance(toggle, bool)`. -/
inductive PyBool where
  | bool (b : Bool)
  | other
deriving DecidableEq

/-- `MySQLConnection._set_getwarnings(toggle)`. -/
def set_getwarnings (s : Conn) (toggle : PyBool) : Res Unit :=
  match toggle with
  | .bool b => .ok () { s with get_warnings := b }
  | .other => .exn (.ValueError "Expected a boolean type") s

/-- The setter of the `raise_on_warnings` property
(`MySQLConnection._set_raise_on_warnings`): a non-bool raises `ValueError`;
a bool is stored in `self._raise_on_warnings` and mirrored into
`self._get_warnings`. -/
def set_raise_on_warnings (s : Conn) (toggle : PyBool) : Res Unit :=
  match toggle with
  | .bool b => .ok () { s with raise_on_warnings := b, get_warnings := b }
  | .other => .exn (.ValueError "Expected a boolean type") s

/-- `MySQLConnection.set_login(username=None, password=None)`: store
`username.strip()` (or the empty string for `None`) and likewise the password. -/
def set_login (s : Conn) (username password : Option String) : Conn :=
  let u : String :=
    match username with
    | some v => py_strip v
    | Option.none => ""
  let p : String :=
    match password with
    | some v => py_strip v
    | Option.none => ""
  { s with user := u, password := p }

/-- Outcome of one iteration of the `reconnect` loop:
`connectErr e` — `self.connect()` raised `e`;
`pingFail` — `connect()` returned but `self.is_connected()` was false
(`is_connected` swallows every exception of `cmd_ping` and returns False);
`success` — `connect()` returned and `is_connected()` was true.
(`disconnect()` swallows its own errors and never raises here.) -/
inductive AttemptOutcome where
  | connectErr (e : PyErr)
  | pingFail
  | success
deriving DecidableEq

/-- Result of `reconnect`: either the method returned (with `connected`
recording whether it returned through the `break` of a successful attempt)
or it raised the interface error wrapping the last `connect()` exception
(the source message embeds `attempts` and `str(err)`). -/
inductive ReconnectResult where
  | returned (connected : Bool)
  | raisedInterfaceError (lastErr : PyErr)
deriving DecidableEq

/-- The `while counter != attempts` loop of `MySQLConnection.reconnect`,
driven by the scripted outcome of each iteration.  Returns the result
together with the number of iterations performed and the number of
`time.sleep(delay)` calls (the sleep runs after a failed iteration unless
that iteration raised the final interface error; `delay > 0` guards it). -/
def reconnect_run (delay : Nat) : List AttemptOutcome → ReconnectResult × Nat × Nat
  | [] => (.returned false, 0, 0)
  | o :: rest =>
    match o with
    | .success => (.returned true, 1, 0)
    | .pingFail =>
      let r := reconnect_run delay rest
      (r.1, r.2.1 + 1, r.2.2 + (if 0 < delay then 1 else 0))
    | .connectErr e =>
      if rest = [] then (.raisedInterfaceError e, 1, 0)
      else
        let r := reconnect_run delay rest
        (r.1, r.2.1 + 1, r.2.2 + (if 0 < delay then 1 else 0))

/-- `MySQLConnection.reconnect(attempts, delay)`: the loop performs at most
`attempts` iterations, consuming one scripted outcome per iteration. -/
def reconnect (attempts delay : Nat) (outcomes : List AttemptOutcome) :
    ReconnectResult × Nat × Nat :=
  reconnect_run delay (outcomes.take attempts)

/-- A string with neither leading nor trailing whitespace. -/
def hasNoEdgeWs (t : String) : Bool :=
  (t.data.head?.all fun c => !isPySpace c) && (t.data.getLast?.all fun c => !isPySpace c)

theorem dropWhile_head_all {α : Type} (p : α → Bool) :
    ∀ l : List α, ((l.dropWhile p).head?.all fun c => !p c) = true := by
  intro l
  induction l with
  | nil => rfl
  | cons a t ih =>
    by_cases hpa : p a = true
    · simpa [List.dropWhile_cons, hpa] using ih
    · simp [List.dropWhile_cons, hpa]

theorem dropWhile_getLast? {α : Type} (p : α → Bool) :
    ∀ l : List α, l.dropWhile p ≠ [] → (l.dropWhile p).getLast? = l.getLast? := by
  intro l
  induction l with
  | nil => intro h; exact absurd rfl h
  | cons a t ih =>
    intro h
    by_cases hpa : p a = true
    · rw [List.dropWhile_cons, if_pos hpa] at h ⊢
      have ht : t ≠ [] := by
        intro he
        rw [he] at h
        exact h rfl
      match t, ht with
      | b :: t2, _ => exact (ih h).trans List.getLast?_cons_cons.symm
    · rw [List.dropWhile_cons, if_neg hpa]

theorem strip_chars_noEdge (l : List Char) :
    (((strip_chars l).head?.all fun c => !isPySpace c) &&
     ((strip_chars l).getLast?.all fun c => !isPySpace c)) = true := by
  unfold strip_chars
  rw [Bool.and_eq_true]
  constructor
  · rw [List.head?_reverse]
    by_cases hm : (l.dropWhile isPySpace).reverse.dropWhile isPySpace = []
    · rw [hm]; rfl
    · rw [dropWhile_getLast? isPySpace _ hm, List.getLast?_reverse]
      exact dropWhile_head_all isPySpace l
  · rw [List.getLast?_reverse]
    exact dropWhile_head_all isPySpace _

theorem hasNoEdgeWs_py_strip (t : String) : hasNoEdgeWs (py_strip t) = true := by
  unfold hasNoEdgeWs py_strip
  exact strip_chars_noEdge t.data

/-- C10: `set_login` strips leading and trailing whitespace from both the
username and the password before storing them, maps `None` to the empty
string, and consequently the stored credentials never carry surrounding
whitespace. -/
theorem set_login_strips : ∀ (s : Conn) (u p : String),
    (set_login s (some u) (some p)).user = py_strip u ∧
    (set_login s (some u) (some p)).password = py_strip p ∧
    (set_login s Option.none Option.none).user = "" ∧
    (set_login s Option.none Option.none).password = "" ∧
    hasNoEdgeWs (set_login s (some u) (some p)).user = true ∧
    hasNoEdgeWs (set_login s (some u) (some p)).password = true ∧
    hasNoEdgeWs (set_login s Option.none Option.none).user = true ∧
    hasNoEdgeWs (set_login s Option.none Option.none).password = true := by
  intro s u p
  refine ⟨rfl, rfl, rfl, rfl, hasNoEdgeWs_py_strip u, hasNoEdgeWs_py_strip p, rfl, rfl⟩

/-- C9: setting `raise_on_warnings` to a boolean stores it and mirrors the
same value into `get_warnings`; a non-boolean raises `ValueError` and
leaves the state (hence both flags) unchanged. -/
theorem raise_on_warnings_mirrors_get_warnings : ∀ (s : Conn) (b : Bool),
    set_raise_on_warnings s (PyBool.bool b) =
      Res.ok () { s with raise_on_warnings := b, get_warnings := b } ∧
    (set_raise_on_warnings s (PyBool.bool b)).state.get_warnings = b ∧
    (set_raise_on_warnings s (PyBool.bool b)).state.raise_on_warnings = b ∧
    set_raise_on_warnings s PyBool.other = Res.exn (PyErr.ValueError "Expected a boolean type") s := by
  intro s b
  exact ⟨rfl, rfl, rfl, rfl⟩

/-- C8: `set_client_flags` with an int greater than 0 replaces the flags
with that value; with a list it folds `apply_flag`, which ORs non-negative
elements in and clears the bits of the absolute value of a negative element (the
`testBit` clauses); an int not greater than 0 (in particular 0) or a
non-int non-list argument raises `ProgrammingError` and leaves the flags
unchanged. -/
theorem set_client_flags_spec : ∀ (s : Conn),
    (∀ n : Int, 0 < n →
      set_client_flags s (FlagsArg.int n) =
        Res.ok n.toNat { s with client_flags := n.toNat }) ∧
    (∀ l : List Int,
      set_client_flags s (FlagsArg.list l) =
        Res.ok (l.foldl apply_flag s.client_flags)
          { s with client_flags := l.foldl apply_flag s.client_flags }) ∧
    (∀ f : Int, 0 ≤ f → ∀ i : Nat,
      (apply_flag s.client_flags f).testBit i =
        (s.client_flags.testBit i || f.toNat.testBit i)) ∧
    (∀ f : Int, f < 0 → ∀ i : Nat,
      (apply_flag s.client_flags f).testBit i =
        (s.client_flags.testBit i && !(f.natAbs.testBit i))) ∧
    (∀ n : Int, n ≤ 0 →
      set_client_flags s (FlagsArg.int n) =
        Res.exn (PyErr.ProgrammingError "set_client_flags expect integer (>0) or set") s) ∧
    set_client_flags s FlagsArg.other =
      Res.exn (PyErr.ProgrammingError "set_client_flags expect integer (>0) or set") s := by
  intro s
  refine ⟨?_, ?_, ?_, ?_, ?_, rfl⟩
  · intro n hn
    simp [set_client_flags, hn]
  · intro l
    rfl
  · intro f hf i
    rw [apply_flag, if_neg (by omega)]
    exact Nat.testBit_lor s.client_flags f.toNat i
  · intro f hf i
    rw [apply_flag, if_pos hf]
    exact Nat.testBit_ldiff s.client_flags f.natAbs i
  · intro n hn
    rw [set_client_flags]
    simp only [if_neg (by omega : ¬0 < n)]

/-- A concrete connection state used by witnesses: framer and handshake
present, empty script and log, no session flags set. -/
def conn0 : Conn :=
  { socket := true, handshake := true, incoming := [], sent := [], fs := [],
    unread_result := false, have_next_result := false, in_transaction := false,
    client_flags := 2, get_warnings := false, raise_on_warnings := false,
    user := "", password := "" }

theorem set_client_flags_spec_witness :
    (0 : Int) < 5 ∧
    set_client_flags conn0 (FlagsArg.int 5) = Res.ok 5 { conn0 with client_flags := 5 } :=
  ⟨by decide, (set_client_flags_spec conn0).1 5 (by decide)⟩

theorem reconnect_run_cons_pingFail (delay : Nat) (rest : List AttemptOutcome) :
    reconnect_run delay (AttemptOutcome.pingFail :: rest) =
      ((reconnect_run delay rest).1, (reconnect_run delay rest).2.1 + 1,
       (reconnect_run delay rest).2.2 + (if 0 < delay then 1 else 0)) := rfl

theorem reconnect_run_cons_connectErr (delay : Nat) (e : PyErr)
    (rest : List AttemptOutcome) (h : rest ≠ []) :
    reconnect_run delay (AttemptOutcome.connectErr e :: rest) =
      ((reconnect_run delay rest).1, (reconnect_run delay rest).2.1 + 1,
       (reconnect_run delay rest).2.2 + (if 0 < delay then 1 else 0)) := by
  rw [reconnect_run]
  simp [h]

theorem reconnect_run_iterations_le (delay : Nat) :
    ∀ l : List AttemptOutcome, (reconnect_run delay l).2.1 ≤ l.length := by
  intro l
  induction l with
  | nil => simp [reconnect_run]
  | cons o rest ih =>
    match o with
    | .success => simp [reconnect_run]
    | .pingFail =>
      simp only [reconnect_run, List.length_cons]
      omega
    | .connectErr e =>
      by_cases hr : rest = []
      · simp [reconnect_run, hr]
      · simp only [reconnect_run, if_neg hr, List.length_cons]
        omega

/-- C7 (amended): `reconnect(attempts, delay)` performs at most `attempts`
iterations; it stops at the first attempt whose `connect()` returns with
`is_connected()` true, having slept `delay` between the failed tries before
it (when `delay > 0`); and when every attempt fails by `connect()` raising
an exception, it raises an `InterfaceError` wrapping the last such error,
with a sleep after every failed attempt but the final raising one.  (When
the final attempt fails silently — `connect()` returns but the liveness
ping fails — the loop instead exits normally; see the counterexample.) -/
theorem reconnect_spec : ∀ (attempts delay : Nat) (outcomes : List AttemptOutcome),
    ((reconnect attempts delay outcomes).2.1 ≤ attempts) ∧
    (∀ pre post, (∀ o ∈ pre, o ≠ AttemptOutcome.success) →
      reconnect_run delay (pre ++ AttemptOutcome.success :: post) =
        (ReconnectResult.returned true, pre.length + 1,
         if 0 < delay then pre.length else 0)) ∧
    (∀ (es : List PyErr) (e : PyErr),
      reconnect_run delay (es.map AttemptOutcome.connectErr ++ [AttemptOutcome.connectErr e]) =
        (ReconnectResult.raisedInterfaceError e, es.length + 1,
         if 0 < delay then es.length else 0)) := by
  intro attempts delay outcomes
  refine ⟨?_, ?_, ?_⟩
  · calc (reconnect attempts delay outcomes).2.1
        ≤ (outcomes.take attempts).length := reconnect_run_iterations_le delay _
      _ ≤ attempts := by simp [List.length_take_le]
  · intro pre
    induction pre with
    | nil =>
      intro post hpre
      simp [reconnect_run]
    | cons o pre2 ih =>
      intro post hpre
      have ho : o ≠ AttemptOutcome.success := hpre o (by simp)
      have hpre2 : ∀ o2 ∈ pre2, o2 ≠ AttemptOutcome.success := by
        intro o2 h2
        exact hpre o2 (by simp [h2])
      match o, ho with
      | .pingFail, _ =>
        rw [List.cons_append, reconnect_run_cons_pingFail, ih post hpre2]
        by_cases hd : 0 < delay
        · simp [hd]
        · simp [hd]
      | .connectErr e, _ =>
        have hne : pre2 ++ AttemptOutcome.success :: post ≠ [] := by simp
        rw [List.cons_append, reconnect_run_cons_connectErr delay e _ hne, ih post hpre2]
        by_cases hd : 0 < delay
        · simp [hd]
        · simp [hd]
  · intro es
    induction es with
    | nil =>
      intro e
      simp [reconnect_run]
    | cons e2 es2 ih =>
      intro e
      have hne : es2.map AttemptOutcome.connectErr ++ [AttemptOutcome.connectErr e] ≠ [] := by
        simp
      rw [List.map_cons, List.cons_append, reconnect_run_cons_connectErr delay e2 _ hne, ih e]
      by_cases hd : 0 < delay
      · simp [hd]
      · simp [hd]

theorem reconnect_spec_witness :
    (∀ o ∈ [AttemptOutcome.connectErr PyErr.AttributeError], o ≠ AttemptOutcome.success) ∧
    reconnect_run 1
        ([AttemptOutcome.connectErr PyErr.AttributeError] ++ AttemptOutcome.success :: []) =
      (ReconnectResult.returned true, 2, 1) :=
  ⟨by decide, (reconnect_spec 2 1 []).2.1 [AttemptOutcome.connectErr PyErr.AttributeError] []
    (by decide)⟩

/-- C7 (counterexample): with a single attempt whose `connect()` succeeds
but whose liveness check `is_connected()` returns false, the attempt has
failed, yet `reconnect` returns normally instead of raising an
`InterfaceError`. -/
theorem reconnect_silent_failure_counterexample :
    reconnect 1 0 [AttemptOutcome.pingFail] = (ReconnectResult.returned false, 1, 0) := by
  decide

/-- C3: when the dispatched result of the QUERY command leaves
`have_next_result` set, `cmd_query` raises the interface error directing
the caller to `cmd_query_iter`; when no further result is pending it
returns the dispatched result unchanged. -/
theorem cmd_query_multi_result_spec : ∀ (s : Conn) (q : String) (r : CmdResult) (s1 : Conn),
    (dispatch_query s q = Res.ok r s1 → s1.have_next_result = true →
      cmd_query s q =
        Res.exn (PyErr.InterfaceError "Use cmd_query_iter for statements with multiple queries.") s1) ∧
    (dispatch_query s q = Res.ok r s1 → s1.have_next_result = false →
      cmd_query s q = Res.ok r s1) := by
  intro s q r s1
  constructor
  · intro hd hf
    simp [cmd_query, hd, hf]
  · intro hd hf
    simp [cmd_query, hd, hf]

/-- The connection about to receive a multi-statement response: the scripted
reply is an OK packet whose status flags carry `MORE_RESULTS_EXISTS` (8). -/
def connMulti : Conn := { conn0 with incoming := [Packet.ok 0 0 8 0] }

/-- State of `connMulti` after dispatching that OK packet. -/
def connMultiAfter : Conn :=
  { conn0 with
    incoming := [],
    sent := [Sent.cmd ServerCmd.QUERY (Arg.str "SELECT 1; SELECT 2")],
    have_next_result := true }

theorem cmd_query_multi_result_witness :
    dispatch_query connMulti "SELECT 1; SELECT 2" =
      Res.ok (CmdResult.okRes ⟨0, 0, 8, 0⟩) connMultiAfter ∧
    connMultiAfter.have_next_result = true ∧
    cmd_query connMulti "SELECT 1; SELECT 2" =
      Res.exn (PyErr.InterfaceError "Use cmd_query_iter for statements with multiple queries.")
        connMultiAfter := by
  have hd : dispatch_query connMulti "SELECT 1; SELECT 2" =
      Res.ok (CmdResult.okRes ⟨0, 0, 8, 0⟩) connMultiAfter := by
    simp [dispatch_query, send_cmd, connMulti, conn0, handle_result, handle_ok,
      handle_server_status, flag_is_set, ServerFlag.STATUS_IN_TRANS,
      ServerFlag.MORE_RESULTS_EXISTS, connMultiAfter]
  exact ⟨hd, rfl,
    (cmd_query_multi_result_spec connMulti "SELECT 1; SELECT 2"
      (CmdResult.okRes ⟨0, 0, 8, 0⟩) connMultiAfter).1 hd rfl⟩

theorem read_text_result_none_terminates :
    ∀ (pkts : List Packet) (rows : List (List Nat)) (term : Option EofFields)
      (rest : List Packet),
      read_text_result pkts Option.none = (.ok (rows, term), rest) → term.isSome = true := by
  intro pkts
  induction pkts with
  | nil =>
    intro rows term rest h
    simp [read_text_result] at h
  | cons p t ih =>
    intro rows term rest h
    match p with
    | .eof st w =>
      have he : read_text_result (Packet.eof st w :: t) Option.none =
          (Except.ok ([], some ⟨st, w⟩), t) := rfl
      rw [he] at h
      simp only [Prod.mk.injEq, Except.ok.injEq] at h
      rw [← h.1.2]
      rfl
    | .err errno msg =>
      simp [read_text_result] at h
    | .row d =>
      have he : read_text_result (Packet.row d :: t) Option.none =
          (match read_text_result t Option.none with
           | (Except.ok (rows2, term2), rest2) => (Except.ok (d :: rows2, term2), rest2)
           | (Except.error e, rest2) => (Except.error e, rest2)) := rfl
      rw [he] at h
      cases hrt : read_text_result t Option.none with
      | mk exc rest2 =>
        rw [hrt] at h
        match exc, h with
        | .ok (rows2, term2), h =>
          simp only [Prod.mk.injEq, Except.ok.injEq] at h
          rw [← h.1.2]
          exact ih rows2 term2 rest2 hrt
    | .ok a i st w =>
      simp [read_text_result] at h
    | .localInfile fn =>
      simp [read_text_result] at h
    | .columnCount n =>
      simp [read_text_result] at h
    | .column info =>
      simp [read_text_result] at h
    | .prepareOk sid nc np w2 =>
      simp [read_text_result] at h

theorem get_rows_sent (s : Conn) (count : Option Nat) :
    (get_rows s count).state.sent = s.sent := by
  rw [get_rows]
  by_cases hu : s.unread_result = false
  · simp [hu, Res.state]
  · rw [if_neg hu]
    by_cases hs : s.socket = false
    · simp [hs, Res.state]
    · rw [if_neg hs]
      cases hrt : read_text_result s.incoming count with
      | mk exc rest =>
        match exc with
        | .error e => simp [Res.state]
        | .ok (rows, term) =>
          match term with
          | Option.none => simp [Res.state]
          | some eof => simp [Res.state, handle_server_status]

theorem get_rows_none_clears (s : Conn) (rows : List (List Nat)) (term : Option EofFields)
    (s1 : Conn) (h : get_rows s Option.none = Res.ok (rows, term) s1) :
    s1.unread_result = false ∧ term.isSome = true := by
  rw [get_rows] at h
  by_cases hu : s.unread_result = false
  · simp [hu] at h
  · rw [if_neg hu] at h
    by_cases hs : s.socket = false
    · simp [hs] at h
    · rw [if_neg hs] at h
      cases hrt : read_text_result s.incoming Option.none with
      | mk exc rest =>
        rw [hrt] at h
        match exc, h with
        | .ok (rows2, term2), h =>
          have hterm : term2.isSome = true :=
            read_text_result_none_terminates s.incoming rows2 term2 rest hrt
          match term2, hterm with
          | some eof, _ =>
            simp only [Res.ok.injEq, Prod.mk.injEq] at h
            refine ⟨?_, ?_⟩
            · rw [← h.2]
            · rw [← h.1.2]
              rfl

/-- C4: `rollback` with no unread result issues `ROLLBACK` directly; with an
unread result it first drains all outstanding rows — a successful full
drain receives the terminating EOF, clears `unread_result` and sends
nothing — and only then issues `ROLLBACK`, from a state whose
`unread_result` is false; when the drain fails, the error propagates and no
`ROLLBACK` is sent. -/
theorem rollback_drains_first : ∀ (s : Conn),
    (s.unread_result = false → rollback s = unit_res (execute_query s "ROLLBACK")) ∧
    (∀ rows term s1, s.unread_result = true →
      get_rows s Option.none = Res.ok (rows, term) s1 →
      s1.unread_result = false ∧ term.isSome = true ∧ s1.sent = s.sent ∧
      rollback s = unit_res (execute_query s1 "ROLLBACK")) ∧
    (∀ e s1, s.unread_result = true → get_rows s Option.none = Res.exn e s1 →
      rollback s = Res.exn e s1 ∧ s1.sent = s.sent) := by
  intro s
  refine ⟨?_, ?_, ?_⟩
  · intro hu
    rw [rollback, if_neg (by rw [hu]; exact Bool.false_ne_true)]
  · intro rows term s1 hu hget
    have hclear := get_rows_none_clears s rows term s1 hget
    have hsent : s1.sent = s.sent := by
      have := get_rows_sent s Option.none
      rw [hget] at this
      exact this
    refine ⟨hclear.1, hclear.2, hsent, ?_⟩
    rw [rollback, if_pos hu, hget]
  · intro e s1 hu hget
    constructor
    · rw [rollback, if_pos hu, hget]
    · have := get_rows_sent s Option.none
      rw [hget] at this
      exact this

/-- A connection with an undrained single-row result outstanding and the
reply to a subsequent `ROLLBACK` already scripted. -/
def connUndrained : Conn :=
  { conn0 with
    unread_result := true,
    incoming := [Packet.row [1], Packet.eof 0 0, Packet.ok 0 0 0 0] }

/-- `connUndrained` after `get_rows()` drained the row and the EOF. -/
def connDrained : Conn :=
  { conn0 with unread_result := false, incoming := [Packet.ok 0 0 0 0] }

theorem rollback_drains_first_witness :
    connUndrained.unread_result = true ∧
    get_rows connUndrained Option.none =
      Res.ok ([[1]], some ⟨0, 0⟩) connDrained ∧
    connDrained.unread_result = false ∧ connDrained.sent = connUndrained.sent ∧
    rollback connUndrained = unit_res (execute_query connDrained "ROLLBACK") := by
  have hget : get_rows connUndrained Option.none =
      Res.ok ([[1]], some ⟨0, 0⟩) connDrained := by
    simp [get_rows, connUndrained, conn0, read_text_result, handle_server_status,
      flag_is_set, ServerFlag.STATUS_IN_TRANS, ServerFlag.MORE_RESULTS_EXISTS, connDrained]
  have h := (rollback_drains_first connUndrained).2.1 [[1]] (some ⟨0, 0⟩) connDrained rfl hget
  exact ⟨rfl, hget, h.1, h.2.2.1, h.2.2.2⟩

theorem execute_query_ok (s : Conn) (q : String) (a i st w : Nat) (rest : List Packet)
    (hu : s.unread_result = false) (hs : s.socket = true)
    (hin : s.incoming = Packet.ok a i st w :: rest)
    (hm : flag_is_set ServerFlag.MORE_RESULTS_EXISTS st = false) :
    execute_query s q =
      Res.ok (CmdResult.okRes ⟨a, i, st, w⟩)
        (handle_server_status
          { s with sent := s.sent ++ [Sent.cmd ServerCmd.QUERY (Arg.str q)], incoming := rest }
          st) := by
  simp [execute_query, cmd_query, dispatch_query, send_cmd, handle_result, handle_ok,
    handle_server_status, hu, hs, hin, hm]

/-- C5: `start_transaction` raises `ProgrammingError` when a transaction is
already in progress; otherwise, an isolation level whose normalisation
(strip, dashes to spaces, upper-case — the case-insensitive match with
dash or space separators) is one of the four canonical levels makes it
issue `SET TRANSACTION ISOLATION LEVEL <L>` followed by
`START TRANSACTION` (with ` WITH CONSISTENT SNAPSHOT` appended when
requested), and any other non-empty level string raises `ValueError` with
nothing sent. -/
theorem start_transaction_spec : ∀ (s : Conn) (cs : Bool) (lvl : String),
    (∀ iso : Option String, s.in_transaction = true →
      start_transaction s cs iso =
        Res.exn (PyErr.ProgrammingError "Transaction already in progress") s) ∧
    (s.in_transaction = false → lvl ≠ "" →
      isolation_levels.contains (normalize_isolation lvl) = false →
      start_transaction s cs (some lvl) =
        Res.exn (PyErr.ValueError "Unknown isolation level") s) ∧
    (∀ a1 i1 st1 w1 a2 i2 st2 w2 rest,
      s.in_transaction = false → s.unread_result = false → s.socket = true →
      lvl ≠ "" → isolation_levels.contains (normalize_isolation lvl) = true →
      s.incoming = Packet.ok a1 i1 st1 w1 :: Packet.ok a2 i2 st2 w2 :: rest →
      flag_is_set ServerFlag.MORE_RESULTS_EXISTS st1 = false →
      flag_is_set ServerFlag.MORE_RESULTS_EXISTS st2 = false →
      (start_transaction s cs (some lvl)).isOk = true ∧
      (start_transaction s cs (some lvl)).state.sent =
        s.sent ++
          [Sent.cmd ServerCmd.QUERY
            (Arg.str ("SET TRANSACTION ISOLATION LEVEL " ++ normalize_isolation lvl)),
           Sent.cmd ServerCmd.QUERY
            (Arg.str (if cs then "START TRANSACTION WITH CONSISTENT SNAPSHOT"
                      else "START TRANSACTION"))]) := by
  intro s cs lvl
  refine ⟨?_, ?_, ?_⟩
  · intro iso hin
    rw [start_transaction, if_pos (by rw [hin])]
  · intro ht hlvl hcont
    simp only [start_transaction, ht, Bool.false_eq_true, if_false, if_neg hlvl, hcont]
    simp
  · intro a1 i1 st1 w1 a2 i2 st2 w2 rest ht hu hs hlvl hcont hinc hm1 hm2
    have h1 := execute_query_ok s ("SET TRANSACTION ISOLATION LEVEL " ++ normalize_isolation lvl)
      a1 i1 st1 w1 (Packet.ok a2 i2 st2 w2 :: rest) hu hs hinc hm1
    have h2 := execute_query_ok
      (handle_server_status
        { s with
          sent := s.sent ++ [Sent.cmd ServerCmd.QUERY
            (Arg.str ("SET TRANSACTION ISOLATION LEVEL " ++ normalize_isolation lvl))],
          incoming := Packet.ok a2 i2 st2 w2 :: rest } st1)
      (if cs then "START TRANSACTION WITH CONSISTENT SNAPSHOT" else "START TRANSACTION")
      a2 i2 st2 w2 rest (by simp [handle_server_status, hu])
      (by simp [handle_server_status, hs]) (by simp [handle_server_status]) hm2
    simp only [handle_server_status] at h1 h2
    simp only [start_transaction, ht, Bool.false_eq_true, if_false, if_neg hlvl, hcont,
      Bool.true_eq_false, h1, h2, unit_res, Res.state, Res.isOk, handle_server_status]
    simp

/-- A connection about to receive the two OK packets answering the
`SET TRANSACTION ISOLATION LEVEL` and `START TRANSACTION` statements
(status flags 1 = in-transaction, no more results). -/
def connTxn : Conn := { conn0 with incoming := [Packet.ok 0 0 1 0, Packet.ok 0 0 1 0] }

theorem start_transaction_spec_witness :
    connTxn.in_transaction = false ∧ connTxn.unread_result = false ∧
    connTxn.socket = true ∧ ("read-committed" : String) ≠ "" ∧
    isolation_levels.contains (normalize_isolation "read-committed") = true ∧
    flag_is_set ServerFlag.MORE_RESULTS_EXISTS 1 = false ∧
    (start_transaction connTxn false (some "read-committed")).isOk = true ∧
    (start_transaction connTxn false (some "read-committed")).state.sent =
      connTxn.sent ++
        [Sent.cmd ServerCmd.QUERY
          (Arg.str ("SET TRANSACTION ISOLATION LEVEL " ++ normalize_isolation "read-committed")),
         Sent.cmd ServerCmd.QUERY (Arg.str "START TRANSACTION")] := by
  have hm : flag_is_set ServerFlag.MORE_RESULTS_EXISTS 1 = false := by
    simp [flag_is_set, ServerFlag.MORE_RESULTS_EXISTS]
  have h := (start_transaction_spec connTxn false "read-committed").2.2
    0 0 1 0 0 0 1 0 [] rfl rfl rfl (by decide) (by decide) rfl hm hm
  exact ⟨rfl, rfl, rfl, by decide, by decide, hm, h.1, h.2⟩

theorem chunk_bytes_flatten (size : Nat) (hs : size ≠ 0) (l : List Nat) :
    (chunk_bytes size l).flatten = l := by
  induction l using chunk_bytes.induct size with
  | case1 x h => exact absurd h hs
  | case2 h => simp [chunk_bytes]
  | case3 x h1 h2 ih =>
    rw [chunk_bytes]
    simp only [if_neg h1, dif_neg h2, List.flatten_cons, ih]
    exact List.take_append_drop size x

theorem chunk_bytes_mem (size : Nat) (hs : size ≠ 0) (l : List Nat) :
    ∀ c ∈ chunk_bytes size l, c ≠ [] ∧ c.length ≤ size := by
  induction l using chunk_bytes.induct size with
  | case1 x h => exact absurd h hs
  | case2 h => rw [chunk_bytes]; simp
  | case3 x h1 h2 ih =>
    rw [chunk_bytes]
    simp only [if_neg h1, dif_neg h2, List.mem_cons]
    rintro c (rfl | hc)
    · refine ⟨?_, by simp [List.length_take]⟩
      simp only [ne_eq, List.take_eq_nil_iff, not_or]
      exact ⟨h1, h2⟩
    · exact ih c hc

/-- C6: a LOCAL INFILE request naming an unreadable file makes the
connection send exactly one empty packet and then raise an
`InterfaceError`; a readable file is streamed in chunks of
`NET_BUFFER_LENGTH - 16` bytes — each chunk one packet, every chunk
non-empty and at most `NET_BUFFER_LENGTH - 16` bytes, their concatenation
the file contents — followed by one empty terminator packet, and the
OK response of the server is returned. -/
theorem load_data_infile_spec : ∀ (s : Conn) (filename : String),
    (fsRead s.fs filename = Option.none → s.socket = true →
      handle_load_data_infile s filename =
        Res.exn (PyErr.InterfaceError ("File " ++ filename ++ " could not be read"))
          { s with sent := s.sent ++ [Sent.raw []] }) ∧
    (∀ content a i st w rest,
      fsRead s.fs filename = some content → s.socket = true → s.unread_result = false →
      s.incoming = Packet.ok a i st w :: rest →
      handle_load_data_infile s filename =
        Res.ok ⟨a, i, st, w⟩
          (handle_server_status
            { s with
              sent := s.sent ++
                ((chunk_bytes (NET_BUFFER_LENGTH - 16) content).map Sent.raw ++ [Sent.raw []]),
              incoming := rest } st) ∧
      (chunk_bytes (NET_BUFFER_LENGTH - 16) content).flatten = content ∧
      (∀ c ∈ chunk_bytes (NET_BUFFER_LENGTH - 16) content,
        c ≠ [] ∧ c.length ≤ NET_BUFFER_LENGTH - 16)) := by
  intro s filename
  constructor
  · intro hf hsock
    rw [handle_load_data_infile, hf]
    rw [if_neg (by simp [hsock])]
  · intro content a i st w rest hf hsock hu hin
    refine ⟨?_, chunk_bytes_flatten _ (by decide) content,
      chunk_bytes_mem _ (by decide) content⟩
    rw [handle_load_data_infile, hf]
    simp [send_data, handle_ok, handle_server_status, hu, hsock, hin, List.append_assoc]

/-- A connection whose filesystem holds a small readable file `x.csv` and
whose scripted reply to the upload is an OK packet. -/
def connInfile : Conn :=
  { conn0 with
    fs := [("x.csv", [10, 20, 30])],
    incoming := [Packet.ok 3 0 0 0] }

theorem load_data_infile_spec_witness :
    fsRead connInfile.fs "x.csv" = some [10, 20, 30] ∧
    connInfile.socket = true ∧ connInfile.unread_result = false ∧
    handle_load_data_infile connInfile "x.csv" =
      Res.ok ⟨3, 0, 0, 0⟩
        (handle_server_status
          { connInfile with
            sent := connInfile.sent ++
              ((chunk_bytes (NET_BUFFER_LENGTH - 16) [10, 20, 30]).map Sent.raw ++
               [Sent.raw []]),
            incoming := [] } 0) ∧
    (chunk_bytes (NET_BUFFER_LENGTH - 16) [10, 20, 30]).flatten = [10, 20, 30] := by
  have h := (load_data_infile_spec connInfile "x.csv").2 [10, 20, 30] 3 0 0 0 []
    (by decide) rfl rfl rfl
  exact ⟨by decide, rfl, rfl, h.1, h.2.1⟩

/-- C2 (amended): every OK or EOF packet dispatched through `_handle_ok` or
`_handle_eof` — including the OK returned by prepared-statement execution,
which `_handle_binary_result` routes through `_handle_ok` — sets
`in_transaction` and `have_next_result` to the `SERVER_STATUS_IN_TRANS` and
`MORE_RESULTS_EXISTS` bits of the status flags of that packet; the prepare-OK
packet, however, is handled by `_handle_binary_ok`, which carries no status
field and returns the connection state unchanged. -/
theorem server_status_update_spec : ∀ (s : Conn) (p : Packet),
    (∀ f s1, handle_ok s p = Res.ok f s1 →
      s1.in_transaction = flag_is_set ServerFlag.STATUS_IN_TRANS f.server_status ∧
      s1.have_next_result = flag_is_set ServerFlag.MORE_RESULTS_EXISTS f.server_status) ∧
    (∀ f s1, handle_eof s p = Res.ok f s1 →
      s1.in_transaction = flag_is_set ServerFlag.STATUS_IN_TRANS f.status_flag ∧
      s1.have_next_result = flag_is_set ServerFlag.MORE_RESULTS_EXISTS f.status_flag) ∧
    (∀ a i st w r s1, handle_binary_result s (Packet.ok a i st w) = Res.ok r s1 →
      s1.in_transaction = flag_is_set ServerFlag.STATUS_IN_TRANS st ∧
      s1.have_next_result = flag_is_set ServerFlag.MORE_RESULTS_EXISTS st) ∧
    (∀ f s1, handle_binary_ok s p = Res.ok f s1 → s1 = s) := by
  intro s p
  refine ⟨?_, ?_, ?_, ?_⟩
  · intro f s1 h
    match p with
    | .ok a i st w =>
      simp only [handle_ok, Res.ok.injEq] at h
      rw [← h.1, ← h.2]
      exact ⟨rfl, rfl⟩
    | .eof st w => simp [handle_ok] at h
    | .err errno msg => simp [handle_ok] at h
    | .localInfile fn => simp [handle_ok] at h
    | .columnCount n => simp [handle_ok] at h
    | .column info => simp [handle_ok] at h
    | .row d => simp [handle_ok] at h
    | .prepareOk a b c d => simp [handle_ok] at h
  · intro f s1 h
    match p with
    | .eof st w =>
      simp only [handle_eof, Res.ok.injEq] at h
      rw [← h.1, ← h.2]
      exact ⟨rfl, rfl⟩
    | .ok a i st w => simp [handle_eof] at h
    | .err errno msg => simp [handle_eof] at h
    | .localInfile fn => simp [handle_eof] at h
    | .columnCount n => simp [handle_eof] at h
    | .column info => simp [handle_eof] at h
    | .row d => simp [handle_eof] at h
    | .prepareOk a b c d => simp [handle_eof] at h
  · intro a i st w r s1 h
    simp only [handle_binary_result, handle_ok, Res.ok.injEq] at h
    rw [← h.2]
    exact ⟨rfl, rfl⟩
  · intro f s1 h
    match p with
    | .prepareOk sid nc np w =>
      simp only [handle_binary_ok, Res.ok.injEq] at h
      exact h.2.symm
    | .ok a i st w => simp [handle_binary_ok] at h
    | .eof st w => simp [handle_binary_ok] at h
    | .err errno msg => simp [handle_binary_ok] at h
    | .localInfile fn => simp [handle_binary_ok] at h
    | .columnCount n => simp [handle_binary_ok] at h
    | .column info => simp [handle_binary_ok] at h
    | .row d => simp [handle_binary_ok] at h

/-- The base state with both session flags set, as left behind by an
earlier OK packet of a still-open transaction with pending results. -/
def connStale : Conn := { conn0 with in_transaction := true, have_next_result := true }

/-- C2 (counterexample): dispatching one and the same prepare-OK packet
through `_handle_binary_ok` leaves the session flags exactly as they were
before — still true on `connStale`, still false on `conn0` — so after
handling this packet `in_transaction` and `have_next_result` are not
determined by the packet at all: they stay stale. -/
theorem prepare_ok_stale_counterexample :
    handle_binary_ok connStale (Packet.prepareOk 7 0 1 0) =
      Res.ok ⟨7, 0, 1, 0⟩ connStale ∧
    handle_binary_ok conn0 (Packet.prepareOk 7 0 1 0) =
      Res.ok ⟨7, 0, 1, 0⟩ conn0 ∧
    connStale.in_transaction = true ∧ conn0.in_transaction = false ∧
    connStale.have_next_result = true ∧ conn0.have_next_result = false := by
  exact ⟨rfl, rfl, rfl, rfl, rfl, rfl⟩

theorem server_status_update_witness :
    handle_ok conn0 (Packet.ok 0 0 9 0) =
      Res.ok ⟨0, 0, 9, 0⟩ { conn0 with in_transaction := true, have_next_result := true } ∧
    ({ conn0 with in_transaction := true, have_next_result := true } : Conn).in_transaction =
      flag_is_set ServerFlag.STATUS_IN_TRANS (9 : Nat) ∧
    ({ conn0 with in_transaction := true, have_next_result := true } : Conn).have_next_result =
      flag_is_set ServerFlag.MORE_RESULTS_EXISTS (9 : Nat) := by
  have hok : handle_ok conn0 (Packet.ok 0 0 9 0) =
      Res.ok ⟨0, 0, 9, 0⟩ { conn0 with in_transaction := true, have_next_result := true } := by
    simp [handle_ok, handle_server_status, flag_is_set, ServerFlag.STATUS_IN_TRANS,
      ServerFlag.MORE_RESULTS_EXISTS, conn0, HAnd.hAnd, AndOp.and, Nat.land, Nat.bitwise]
  have h := (server_status_update_spec conn0 (Packet.ok 0 0 9 0)).1 ⟨0, 0, 9, 0⟩
    { conn0 with in_transaction := true, have_next_result := true } hok
  exact ⟨hok, h.1, h.2⟩

end MySQL
